import Mathlib

/-
Verification of the okdoittttt/rag repository (Next.js front end for a hybrid
RAG retrieval engine).  The TypeScript sources under src/ui are shallowly
embedded as pure Lean functions; JavaScript string operations are modelled
over the character sequence of the string (`String.data`), which matches the
JS semantics for the ASCII/Hangul inputs involved.  The Python retrieval core
(incremental indexer, hybrid searcher, reranker) is not part of the snapshot;
where a claim depends on it, a definition marked "Modelled from the spec" is
used, faithful to the specification's wording.
-/

namespace Rag

/-! ## JavaScript string primitives, modelled over the character sequence -/

/-- JS `s.startsWith(p)`. -/
def jsStartsWith (s p : String) : Bool := p.data.isPrefixOf s.data

/-- JS `s.slice(n)` (drop the first `n` characters). -/
def jsDrop (s : String) (n : Nat) : String := ⟨s.data.drop n⟩

/-- JS `s.toLowerCase()` (ASCII-relevant part). -/
def jsToLower (s : String) : String := ⟨s.data.map Char.toLower⟩

/-- Helper for `jsSplit`: split a character list on a separator character. -/
def jsSplitChar (sep : Char) : List Char → List String
  | [] => [""]
  | c :: cs =>
    let rest := jsSplitChar sep cs
    if c = sep then "" :: rest
    else
      match rest with
      | [] => [⟨[c]⟩]
      | r :: rs => (⟨c :: r.data⟩ : String) :: rs

/-- JS `s.split(sep)` for a single-character separator: returns every segment,
including empty ones, and `[""]` on the empty string. -/
def jsSplit (s : String) (sep : Char) : List String := jsSplitChar sep s.data

/-- JS `s.slice(0, n)`. -/
def jsTake (s : String) (n : Nat) : String := ⟨s.data.take n⟩

/-! ## src/ui/lib/api.ts -/

/-- Interface `ChunkReference` (api.ts lines 16-20). The JS `number` score is
modelled as an integer. -/
structure ChunkReference where
  content : String
  source : String
  score : Int
deriving DecidableEq, Repr

/-- Interface `AskOptions` (api.ts lines 5-14): every field is optional. -/
structure AskOptions where
  topK : Option Nat := none
  rerank : Option Bool := none
  expand : Option Bool := none
  provider : Option String := none
  user_id : Option String := none
  api_key : Option String := none
  model_name : Option String := none
  base_url : Option String := none
deriving DecidableEq, Repr

/-- The JSON request body built by `askQuestion` / `askQuestionStream`.
`top_k`, `rerank`, `expand` and `provider` are non-optional fields: the
builders always emit them (the `??` defaults make them defined), while the
remaining fields are forwarded as-is and are dropped from the JSON when
`undefined` (modelled by `Option`). -/
structure AskBody where
  query : String
  top_k : Nat
  rerank : Bool
  expand : Bool
  provider : String
  user_id : Option String
  api_key : Option String
  model_name : Option String
  base_url : Option String
deriving DecidableEq, Repr

/-- Body of the request sent by `askQuestion` (api.ts lines 43-53). -/
def askQuestionBody (query : String) (options : AskOptions) : AskBody :=
  { query := query
    top_k := options.topK.getD 5
    rerank := options.rerank.getD false
    expand := options.expand.getD false
    provider := options.provider.getD "gemini"
    user_id := options.user_id
    api_key := options.api_key
    model_name := options.model_name
    base_url := options.base_url }

/-- Body of the request sent by `askQuestionStream` (api.ts lines 81-91). -/
def askQuestionStreamBody (query : String) (options : AskOptions) : AskBody :=
  { query := query
    top_k := options.topK.getD 5
    rerank := options.rerank.getD false
    expand := options.expand.getD false
    provider := options.provider.getD "gemini"
    user_id := options.user_id
    api_key := options.api_key
    model_name := options.model_name
    base_url := options.base_url }

/-- Field names of interface `AskResponse` (api.ts lines 22-25): the response
shape consumed by the client carries only the answer and the references. -/
def askResponseFieldNames : List String := ["answer", "references"]

/-- Options passed by `Home.handleSubmit` in src/ui/app/page.tsx line 32:
`askQuestion(query, ⟨provider⟩)` sets only the provider; in particular no
`user_id` is supplied. -/
def homeAskOptions (provider : String) : AskOptions :=
  { provider := some provider }

/-! ## middleware (src/unnamed/part_001) -/

/-- Outcome of the Next.js middleware for one request. -/
inductive MiddlewareDecision
  | next
  | redirectHome
  | redirectLogin
deriving DecidableEq, Repr

/-- The `middleware` function of src/unnamed/part_001 lines 5-43, as a
function of the request pathname and of whether a session token is present. -/
def middleware (pathname : String) (hasToken : Bool) : MiddlewareDecision :=
  let isAuthPage :=
    jsStartsWith pathname "/login" || jsStartsWith pathname "/register"
  let isApiAuthRoute := jsStartsWith pathname "/api/auth"
  let isPublicApiRoute :=
    jsStartsWith pathname "/api/ask" || jsStartsWith pathname "/api/search" ||
      jsStartsWith pathname "/api/health"
  if isApiAuthRoute then .next
  else if isPublicApiRoute then .next
  else if isAuthPage && hasToken then .redirectHome
  else if !isAuthPage && !hasToken then .redirectLogin
  else .next

/-! ## src/ui/app/api/upload/route.ts -/

/-- The browser `File` pulled out of the form data: name, raw bytes and MIME
type (`file.type`, possibly empty). -/
structure UploadedFile where
  name : String
  bytes : List Nat
  mimetype : String
deriving DecidableEq, Repr

/-- One row of the `Document` table
(src/ui/prisma/migrations/20260118121633_add_document_model/migration.sql):
primary key `id`, plus filename, filepath, filesize, mimetype, chunkCount and
the owning `userId`.  The schema declares no uniqueness constraint beyond the
primary key. -/
structure DocRow where
  id : String
  filename : String
  filepath : String
  filesize : Nat
  mimetype : String
  chunkCount : Nat
  userId : String
deriving DecidableEq, Repr

/-- Server-side state touched by the upload route: files written to disk
(path and bytes) and the `Document` table. -/
structure ServerState where
  files : List (String × List Nat)
  documents : List DocRow
deriving DecidableEq, Repr

/-- Response of `POST /api/upload`: 401, 400 with the route's message, 500,
or the success payload (filename, chunk_count, document_id). -/
inductive UploadResult
  | unauthorized
  | badRequest (msg : String)
  | ok (filename : String) (chunkCount : Nat) (docId : String)
deriving DecidableEq, Repr

/-- `allowedExtensions` (route.ts line 29). -/
def allowedExtensions : List String := [".txt", ".md", ".pdf"]

/-- The extension computed at route.ts line 30:
`"." + file.name.split(".").pop()?.toLowerCase()`.  `split` never returns an
empty array, so `pop` is the last segment. -/
def uploadExt (name : String) : String :=
  "." ++ jsToLower ((jsSplit name '.').getLastD "")

/-- Character class `[a-zA-Z0-9가-힣._-]` of the sanitizer regex at
route.ts line 47 (Hangul syllables are U+AC00 to U+D7A3). -/
def keepChar (c : Char) : Bool :=
  (('a' ≤ c && c ≤ 'z') || ('A' ≤ c && c ≤ 'Z') || ('0' ≤ c && c ≤ '9') ||
    (('가' : Char) ≤ c && c ≤ ('힣' : Char)) ||
    c = '.' || c = '_' || c = '-')

/-- `file.name.replace(/[^a-zA-Z0-9가-힣._-]/g, "_")` (route.ts line 47). -/
def safeFilename (name : String) : String :=
  ⟨name.data.map (fun c => if keepChar c then c else '_')⟩

/-- `UPLOAD_DIR` default (route.ts line 8). -/
def uploadDir : String := "./data/uploads"

/-- The `POST` handler of src/ui/app/api/upload/route.ts lines 10-99.
Externals are inputs: `sessionUserId` is `(await auth())?.user?.id`,
`file` the form-data file, `backendChunkCount` the backend `/index` call
(`none` when `response.ok` is false, otherwise the returned `chunk_count`),
`timestamp` is `Date.now()` and `newDocId` the id Prisma generates.  Note
that when the backend call is not ok the handler still proceeds: it keeps
`chunkCount = 0`, creates the Document row and returns the success payload. -/
def uploadPOST (st : ServerState) (sessionUserId : Option String)
    (file : Option UploadedFile) (backendChunkCount : Option Nat)
    (timestamp : Nat) (newDocId : String) : UploadResult × ServerState :=
  match sessionUserId with
  | none => (.unauthorized, st)
  | some userId =>
    match file with
    | none => (.badRequest "파일이 없습니다.", st)
    | some f =>
      let ext := uploadExt f.name
      if allowedExtensions.contains ext = false then
        (.badRequest "지원되지 않는 파일 형식입니다. (.txt, .md, .pdf만 지원)", st)
      else
        let storedFilename := toString timestamp ++ "_" ++ safeFilename f.name
        let filepath := uploadDir ++ "/" ++ userId ++ "/" ++ storedFilename
        let chunkCount := backendChunkCount.getD 0
        let doc : DocRow :=
          { id := newDocId
            filename := f.name
            filepath := filepath
            filesize := f.bytes.length
            mimetype := if f.mimetype = "" then "text/plain" else f.mimetype
            chunkCount := chunkCount
            userId := userId }
        (.ok f.name chunkCount newDocId,
          { files := st.files ++ [(filepath, f.bytes)]
            documents := st.documents ++ [doc] })

/-! ## src/ui/app/api/documents/[id]/route.ts -/

/-- A chunk record held by the backend vector store (Qdrant), keyed by
user id and source filename. -/
structure VectorChunk where
  userId : String
  filename : String
  text : String
deriving DecidableEq, Repr

/-- Response of `DELETE /api/documents/[id]`. -/
inductive DeleteResult
  | unauthorized
  | notFound
  | ok
deriving DecidableEq, Repr

/-- The `DELETE` handler of src/ui/app/api/documents/[id]/route.ts lines
6-54.  It looks the document up by `(id, userId)`, unlinks the stored file,
deletes the `Document` row by id, and returns.  The chunks in the vector
store are NOT touched: the handler's own comment records that deleting the
document's chunks from Qdrant is unimplemented and that they remain.
`diskFiles` is the set of stored file paths; `vectors` the backend vector
store. -/
def documentDELETE (documents : List DocRow) (diskFiles : List String)
    (vectors : List VectorChunk) (sessionUserId : Option String)
    (id : String) : DeleteResult × List DocRow × List String × List VectorChunk :=
  match sessionUserId with
  | none => (.unauthorized, documents, diskFiles, vectors)
  | some uid =>
    match documents.find? (fun d => d.id == id && d.userId == uid) with
    | none => (.notFound, documents, diskFiles, vectors)
    | some doc =>
      (.ok,
        documents.filter (fun d => !(d.id == id)),
        diskFiles.filter (fun p => !(p == doc.filepath)),
        vectors)

/-! ## src/ui/components/chat/ChatMessage.tsx and src/ui/lib/chatStore.ts -/

/-- Interface `Message` (ChatMessage.tsx lines 5-15); `references` and
`isLoading` are optional. -/
structure Message where
  id : String
  role : String
  content : String
  references : Option (List ChunkReference) := none
  isLoading : Option Bool := none
deriving DecidableEq, Repr

/-- `Partial Message` as consumed by `updateMessage`: any subset of the
fields; `none` models an absent key, which the spread `... updates` leaves
at the old value. -/
structure MessageUpdate where
  id : Option String := none
  role : Option String := none
  content : Option String := none
  references : Option (List ChunkReference) := none
  isLoading : Option Bool := none
deriving DecidableEq, Repr

/-- The JS object spread merge of a message with a partial update. -/
def applyUpdate (msg : Message) (u : MessageUpdate) : Message :=
  { id := u.id.getD msg.id
    role := u.role.getD msg.role
    content := u.content.getD msg.content
    references := match u.references with
      | some r => some r
      | none => msg.references
    isLoading := match u.isLoading with
      | some b => some b
      | none => msg.isLoading }

/-- Interface `ChatSession` (chatStore.ts lines 5-10). -/
structure ChatSession where
  id : String
  title : String
  messages : List Message
  updatedAt : Nat
deriving DecidableEq, Repr

/-- The persisted zustand store state (chatStore.ts lines 12-14): the
`Record` of sessions is modelled as an association list keyed by session id,
which preserves the JS object's insertion order. -/
structure ChatStore where
  sessions : List (String × ChatSession)
  currentSessionId : Option String
deriving DecidableEq, Repr

/-- `state.sessions[sessionId]` on the record. -/
def lookupSession (st : ChatStore) (sessionId : String) : Option ChatSession :=
  (st.sessions.find? (fun kv => kv.1 == sessionId)).map (fun kv => kv.2)

/-- The spread update of an existing key of the record,
`sessions := record-with (sessionId : s)`: the value at that key is replaced
in place.  Every mutation below only calls this after looking the key up, so
the insert-when-missing case of the JS spread never occurs. -/
def setSession (st : ChatStore) (sessionId : String) (s : ChatSession) : ChatStore :=
  { st with
    sessions := st.sessions.map (fun kv => if kv.1 == sessionId then (kv.1, s) else kv) }

/-- Title auto-generated from a first user message (chatStore.ts line 68):
`content.slice(0, 30)` plus an ellipsis when longer than 30. -/
def autoTitle (content : String) : String :=
  jsTake content 30 ++ (if 30 < content.data.length then "..." else "")

/-- `addMessage` (chatStore.ts lines 55-75); `now` is `Date.now()`. -/
def addMessage (st : ChatStore) (sessionId : String) (message : Message)
    (now : Nat) : ChatStore :=
  match lookupSession st sessionId with
  | none => st
  | some session =>
    let updatedSession : ChatSession :=
      { session with messages := session.messages ++ [message], updatedAt := now }
    let updatedSession :=
      if session.title = "새로운 채팅" && message.role = "user" then
        { updatedSession with title := autoTitle message.content }
      else updatedSession
    setSession st sessionId updatedSession

/-- `updateMessage` (chatStore.ts lines 77-93). -/
def updateMessage (st : ChatStore) (sessionId messageId : String)
    (updates : MessageUpdate) (now : Nat) : ChatStore :=
  match lookupSession st sessionId with
  | none => st
  | some session =>
    let updatedMessages := session.messages.map (fun msg =>
      if msg.id == messageId then applyUpdate msg updates else msg)
    setSession st sessionId
      { session with messages := updatedMessages, updatedAt := now }

/-- `appendMessageContent` (chatStore.ts lines 95-111). -/
def appendMessageContent (st : ChatStore) (sessionId messageId : String)
    (content : String) (now : Nat) : ChatStore :=
  match lookupSession st sessionId with
  | none => st
  | some session =>
    let updatedMessages := session.messages.map (fun msg =>
      if msg.id == messageId then { msg with content := msg.content ++ content } else msg)
    setSession st sessionId
      { session with messages := updatedMessages, updatedAt := now }

/-- `updateSessionTitle` (chatStore.ts lines 113-124). -/
def updateSessionTitle (st : ChatStore) (sessionId title : String)
    (now : Nat) : ChatStore :=
  match lookupSession st sessionId with
  | none => st
  | some session =>
    setSession st sessionId { session with title := title, updatedAt := now }

/-! ## The SSE read loop of askQuestionStream (api.ts lines 103-139) -/

/-- The result of `JSON.parse` on a data payload, restricted to the two
fields the loop inspects.  `text = some ""` models a present but empty
string (falsy in JS); `references = some rs` models a present array (arrays
are always truthy). -/
structure ParsedData where
  text : Option String := none
  references : Option (List ChunkReference) := none
deriving DecidableEq, Repr

/-- One invoked client callback. `error` stands for `onError`, which in the
source is only reached from the catch block around the fetch/read, never
from the line-processing loop. -/
inductive StreamCallback
  | chunk (text : String)
  | refs (references : List ChunkReference)
  | error (msg : String)
deriving DecidableEq, Repr

/-- Bool test used below for `onError` absence. -/
def StreamCallback.isErrorCb : StreamCallback → Bool
  | .error _ => true
  | _ => false

/-- `line.startsWith("data: ")` (api.ts line 116). -/
def isDataLine (line : String) : Bool := jsStartsWith line "data: "

/-- `line.slice(6)` (api.ts line 117). -/
def dataPayload (line : String) : String := jsDrop line 6

/-- A complete `data: [DONE]` event line (api.ts line 118). -/
def isDoneLine (line : String) : Bool :=
  isDataLine line && dataPayload line == "[DONE]"

/-- JS truthiness of `parsed.text`: present and non-empty. -/
def truthyText : Option String → Bool
  | some t => !(t == "")
  | none => false

/-- The callback selected for one successfully parsed payload
(api.ts lines 125-129): `onChunk` when `parsed.text` is truthy, else
`onReferences` when `parsed.references` is truthy, else nothing. -/
def callbackOfParsed (parsed : ParsedData) : Option StreamCallback :=
  if truthyText parsed.text then some (.chunk (parsed.text.getD ""))
  else
    match parsed.references with
    | some rs => some (.refs rs)
    | none => none

/-- The inner `for (const line of lines)` loop (api.ts lines 115-134) over a
list of complete lines: returns the emitted callbacks and whether
`data: [DONE]` was hit (`onComplete()` followed by `return`).  A payload on
which `JSON.parse` throws (`parse` returns `none`) is logged and skipped. -/
def processLines (parse : String → Option ParsedData) :
    List String → List StreamCallback × Bool
  | [] => ([], false)
  | line :: rest =>
    if isDataLine line then
      let data := dataPayload line
      if data == "[DONE]" then ([], true)
      else
        match parse data with
        | some parsed =>
          let r := processLines parse rest
          match callbackOfParsed parsed with
          | some cb => (cb :: r.1, r.2)
          | none => r
        | none => processLines parse rest
    else processLines parse rest

/-- The outer `while (true)` read loop (api.ts lines 107-135): `chunks` is
the sequence of decoded reads of the response body; the buffer accumulates,
`buffer.split("\n")` is taken, the last (possibly incomplete) segment is
kept back as the new buffer, and the complete lines are processed.  The
boolean is true exactly when `onComplete` was invoked; when the reader is
exhausted first, the loop just breaks. -/
def askStreamLoop (parse : String → Option ParsedData) :
    List String → String → List StreamCallback × Bool
  | [], _buffer => ([], false)
  | value :: rest, buffer =>
    let parts := jsSplit (buffer ++ value) '\n'
    let r := processLines parse parts.dropLast
    if r.2 then (r.1, true)
    else
      let r2 := askStreamLoop parse rest (parts.getLastD "")
      (r.1 ++ r2.1, r2.2)

/-- The complete (newline-terminated) lines framed out of the chunk stream
by the buffering discipline of the loop; a trailing unterminated segment is
left in the buffer and never processed. -/
def receivedLines : List String → String → List String
  | [], _buffer => []
  | value :: rest, buffer =>
    let parts := jsSplit (buffer ++ value) '\n'
    parts.dropLast ++ receivedLines rest (parts.getLastD "")

/-! ## The retrieval core, modelled from the spec

The Python retrieval core (Incremental Indexer, Hybrid Searcher, Reranker)
is not part of the src/ snapshot — only its Next.js callers are.  The
definitions below are modelled from the specification's wording. -/

/-- Modelled from the spec: a Chunk of the data model (section 3) — chunk id,
owner/namespace key, parent source filename, ordinal position, raw text. -/
structure CoreChunk where
  id : Nat
  owner : String
  filename : String
  ordinal : Nat
  text : String
deriving DecidableEq, Repr

/-- Modelled from the spec: a Document of the data model (section 3) —
owner/namespace key, source filename, content hash of the normalized text. -/
structure CoreDoc where
  owner : String
  filename : String
  contentHash : String
deriving DecidableEq, Repr

/-- Modelled from the spec: the per-owner index store (section 9), holding
the Document records and the indexed chunks, plus a fresh-id counter. -/
structure CoreState where
  docs : List CoreDoc
  chunks : List CoreChunk
  nextChunkId : Nat
deriving DecidableEq, Repr

/-- Modelled from the spec: "model the content-hash check as a pure function
over normalized text" (section 9).  The digest is modelled as the identity
on the normalized text, i.e. a collision-free digest. -/
def contentHash (normalizedText : String) : String := normalizedText

/-- Modelled from the spec: the ingestion status
`ok | skipped_unchanged | failed` (section 6). -/
inductive IndexStatus
  | ok
  | skipped_unchanged
  | failed
deriving DecidableEq, Repr

/-- Modelled from the spec: `index(document, owner)` of the Incremental
Indexer (section 4.3).  If a Document with the same (owner, filename, hash)
exists, a no-op success with zero new chunks; if the embedding provider is
unavailable the whole call fails with `failed`, leaving prior state
untouched (section 7d); otherwise prior Chunks for the (owner, filename)
pair are deleted and the chunker's output is indexed all-or-nothing.  The
Chunker (section 4.2) is abstracted as the `chunker` argument. -/
def coreIndex (chunker : String → List String) (embedAvailable : Bool)
    (st : CoreState) (owner filename normalizedText : String) :
    (Nat × IndexStatus) × CoreState :=
  let h := contentHash normalizedText
  if st.docs.contains { owner := owner, filename := filename, contentHash := h } then
    ((0, .skipped_unchanged), st)
  else if embedAvailable = false then
    ((0, .failed), st)
  else
    let keptDocs := st.docs.filter
      (fun d => !(d.owner == owner && d.filename == filename))
    let keptChunks := st.chunks.filter
      (fun c => !(c.owner == owner && c.filename == filename))
    let pieces := chunker normalizedText
    let newChunks := pieces.enum.map (fun p =>
      { id := st.nextChunkId + p.1, owner := owner, filename := filename,
        ordinal := p.1, text := p.2 : CoreChunk })
    ((pieces.length, .ok),
      { docs := keptDocs ++ [{ owner := owner, filename := filename, contentHash := h }]
        chunks := keptChunks ++ newChunks
        nextChunkId := st.nextChunkId + pieces.length })

/-- Modelled from the spec: `search(owner, query_text, top_k, source_filter)`
of the Hybrid Searcher (section 4.6).  Every query is owner-scoped (never
filtered post-hoc only, section 4.5); candidates are ranked by the fused
score (abstracted as the `score` argument) and at most
`top_k * pool_multiplier` (default multiplier 3) are returned. -/
def coreSearch (st : CoreState) (owner : String) (sourceFilter : Option String)
    (score : CoreChunk → Nat) (topK : Nat) : List CoreChunk :=
  let pool := st.chunks.filter (fun c =>
    c.owner == owner &&
      (match sourceFilter with
       | some f => c.filename == f
       | none => true))
  (pool.mergeSort (fun a b => Nat.ble (score b) (score a))).take (topK * 3)

/-- Modelled from the spec: `rerank(query_text, candidates, top_k)` of the
Reranker (section 4.8).  When the cross-encoder model is unavailable, the
stage is skipped and the top `top_k` hybrid candidates are returned
unmodified, flagged `false` ("unreranked"); the query never fails.  The
cross-encoder is abstracted as the `crossScore` argument. -/
def coreRerank (crossScore : String → String → Nat) (modelAvailable : Bool)
    (queryText : String) (candidates : List CoreChunk) (topK : Nat) :
    List CoreChunk × Bool :=
  if modelAvailable then
    ((candidates.mergeSort (fun a b =>
        Nat.ble (crossScore queryText b.text) (crossScore queryText a.text))).take topK,
      true)
  else
    (candidates.take topK, false)

/-! ## Auxiliary definitions for the claims -/

/-- The claim's notion of the (case-insensitive) extension of a filename,
following the claim's words rather than the code: the final dot-suffix when
the name contains a dot, and no extension otherwise.  To be compared with
`uploadExt`, the computation the route actually performs. -/
def claimedExtension (name : String) : String :=
  if name.data.contains '.' then "." ++ jsToLower ((jsSplit name '.').getLastD "")
  else ""

/-- A sample chat session used to instantiate the chat-store theorems. -/
def session0 : ChatSession :=
  { id := "s1", title := "새로운 채팅",
    messages := [{ id := "m1", role := "user", content := "hi" }], updatedAt := 1 }

/-- A sample chat store holding the single session `s1`. -/
def chatStore0 : ChatStore :=
  { sessions := [("s1", session0)], currentSessionId := some "s1" }

/-- A sample message. -/
def msg0 : Message := { id := "m2", role := "user", content := "hello" }

/-! ## Claim C7 -/

/-- Claim C7: for every ask request built by the client, any omitted option
is filled with the documented default before the request is sent — `top_k`
defaults to 5, `expand` defaults to false, `rerank` defaults to false — and
the three fields are always present in the request body (they are mandatory
fields of `AskBody`, and `askQuestionStream` builds the identical body). -/
theorem c7_ask_request_defaults (q : String) (opts : AskOptions) :
    (askQuestionBody q opts).top_k = opts.topK.getD 5 ∧
    (askQuestionBody q opts).rerank = opts.rerank.getD false ∧
    (askQuestionBody q opts).expand = opts.expand.getD false ∧
    askQuestionStreamBody q opts = askQuestionBody q opts ∧
    (askQuestionBody q { opts with topK := none }).top_k = 5 ∧
    (askQuestionBody q { opts with rerank := none }).rerank = false ∧
    (askQuestionBody q { opts with expand := none }).expand = false :=
  ⟨rfl, rfl, rfl, rfl, rfl, rfl, rfl⟩

/-! ## Claim C1 -/

/-- Claim C1 counterexample: an unauthenticated request to /api/ask or
/api/search passes the middleware (they are treated as public API routes),
and the ask request built by `Home.handleSubmit` (page.tsx line 32, which
passes only the provider) carries no user id — so it is false both that the
ask/search endpoints are unreachable without owner scoping and that the
client supplies the authenticated user's id with every ask/search request. -/
theorem c1_unscoped_ask_counterexample :
    middleware "/api/ask" false = MiddlewareDecision.next ∧
    middleware "/api/search" false = MiddlewareDecision.next ∧
    (askQuestionBody "what is attention" (homeAskOptions "gemini")).user_id = none :=
  ⟨by decide, by decide, rfl⟩

/-- Claim C1 amended: the retrieval core's search (modelled from the spec)
is owner-scoped — every returned chunk belongs to the requesting owner — but
the scoping is not structurally guaranteed by the web layer: the middleware
exempts /api/ask and /api/search from authentication, and the chat page's
`handleSubmit` sends ask requests with no user id. -/
theorem c1_core_scoped_client_unscoped :
    (∀ (st : CoreState) (owner : String) (sourceFilter : Option String)
        (score : CoreChunk → Nat) (topK : Nat),
      (coreSearch st owner sourceFilter score topK).all
        (fun c => c.owner == owner) = true) ∧
    middleware "/api/ask" false = MiddlewareDecision.next ∧
    middleware "/api/search" false = MiddlewareDecision.next ∧
    (∀ q p, (askQuestionBody q (homeAskOptions p)).user_id = none) := by
  refine ⟨fun st owner sf score topK => ?_, by decide, by decide, fun q p => rfl⟩
  rw [List.all_eq_true]
  intro c hc
  simp only [coreSearch] at hc
  have h1 := List.take_subset _ _ hc
  rw [List.mem_mergeSort] at h1
  have h2 := (List.mem_filter.mp h1).2
  simp only [Bool.and_eq_true] at h2
  exact h2.1

/-! ## Claim C2 -/

/-- Claim C2, evaluated at the failing input: owner u1 deletes their
document d1 (source a.txt), which has one chunk stored in the backend
vector store.  The DELETE handler reports success and removes the Document
row and the stored file, but the document's chunk remains in the vector
store — the deletion does not cascade to chunks, contrary to the claim and
to the handler's own TODO comment. -/
theorem c2_delete_leaves_vector_chunks :
    documentDELETE
      [{ id := "d1", filename := "a.txt", filepath := "p1", filesize := 5, mimetype := "text/plain", chunkCount := 1, userId := "u1" }]
      ["p1"]
      [{ userId := "u1", filename := "a.txt", text := "hello world" }]
      (some "u1") "d1"
    = (DeleteResult.ok, [], [],
       [{ userId := "u1", filename := "a.txt", text := "hello world" }]) := by
  decide

/-! ## Claim C3 -/

/-- Claim C3 counterexample: when the backend /index call fails
(`backendChunkCount = none`, i.e. `response.ok` is false), the upload route
still answers with the success payload — chunk_count 0 — and still creates
the Document row; the indexing failure is never reported as `failed` to the
uploader. -/
theorem c3_upload_success_despite_index_failure :
    (uploadPOST { files := [], documents := [] } (some "u1")
        (some { name := "a.txt", bytes := [1, 2], mimetype := "text/plain" })
        none 100 "d1").1
      = UploadResult.ok "a.txt" 0 "d1" ∧
    (uploadPOST { files := [], documents := [] } (some "u1")
        (some { name := "a.txt", bytes := [1, 2], mimetype := "text/plain" })
        none 100 "d1").2.documents.length = 1 := by
  decide

/-- Claim C3 amended: the core's `index()` (modelled from the spec) fails
atomically — when the embedding provider is unavailable and the content is
not already indexed, it returns `(0, failed)` and leaves the prior state
untouched — but the upload endpoint does not propagate the failure: when
the backend /index call fails, `POST /api/upload` still reports success
with `chunk_count = 0` to the uploader. -/
theorem c3_index_failure_reporting :
    (∀ (chunker : String → List String) (st : CoreState) (owner filename text : String),
      st.docs.contains { owner := owner, filename := filename, contentHash := contentHash text } = false →
      coreIndex chunker false st owner filename text = ((0, IndexStatus.failed), st)) ∧
    (∀ (st : ServerState) (uid : String) (f : UploadedFile) (ts : Nat) (did : String),
      allowedExtensions.contains (uploadExt f.name) = true →
      (uploadPOST st (some uid) (some f) none ts did).1
        = UploadResult.ok f.name 0 did) := by
  constructor
  · intro chunker st owner filename text h
    have hnot : ({ owner := owner, filename := filename, contentHash := contentHash text } : CoreDoc) ∉ st.docs := by
      simpa using h
    simp [coreIndex, hnot]
  · intro st uid f ts did h
    have hmem : uploadExt f.name ∈ allowedExtensions := by simpa using h
    simp [uploadPOST, hmem]

/-- Claim C3 witness: the amended statement instantiated at a concrete
state and file. -/
theorem c3_index_failure_reporting_witness :
    coreIndex (fun t => [t]) false { docs := [], chunks := [], nextChunkId := 0 }
        "u1" "a.txt" "hello"
      = ((0, IndexStatus.failed), { docs := [], chunks := [], nextChunkId := 0 }) ∧
    (uploadPOST { files := [], documents := [] } (some "u1")
        (some { name := "a.txt", bytes := [1], mimetype := "" }) none 7 "d9").1
      = UploadResult.ok "a.txt" 0 "d9" :=
  ⟨c3_index_failure_reporting.1 (fun t => [t])
      { docs := [], chunks := [], nextChunkId := 0 } "u1" "a.txt" "hello" (by decide),
   c3_index_failure_reporting.2 { files := [], documents := [] } "u1"
      { name := "a.txt", bytes := [1], mimetype := "" } 7 "d9" (by decide)⟩

/-! ## Claim C5 -/

/-- Claim C5 counterexample: uploading the same filename twice for the same
owner creates two Document rows for the (owner, filename) pair — the schema
has no uniqueness constraint on it and the route creates a row
unconditionally. -/
theorem c5_duplicate_document_rows :
    (let st1 := (uploadPOST { files := [], documents := [] } (some "u1")
        (some { name := "a.txt", bytes := [1], mimetype := "" }) (some 3) 100 "d1").2
     ((uploadPOST st1 (some "u1")
        (some { name := "a.txt", bytes := [1], mimetype := "" }) (some 3) 200 "d2").2.documents.countP
        (fun d => d.userId == "u1" && d.filename == "a.txt"))) = 2 := by
  decide

/-- Claim C5 amended: there is no one-Document-per-(owner, filename)
invariant: every accepted upload appends one more Document row for its
(owner, filename) pair, regardless of the rows already present, so the pair
count grows without bound. -/
theorem c5_document_rows_not_unique (st : ServerState) (uid : String)
    (f : UploadedFile) (backend : Option Nat) (ts : Nat) (did : String)
    (h : allowedExtensions.contains (uploadExt f.name) = true) :
    (uploadPOST st (some uid) (some f) backend ts did).2.documents.countP
        (fun d => d.userId == uid && d.filename == f.name)
      = st.documents.countP (fun d => d.userId == uid && d.filename == f.name) + 1 := by
  have hmem : uploadExt f.name ∈ allowedExtensions := by simpa using h
  simp [uploadPOST, hmem, List.countP_append, List.countP_cons]

/-- Claim C5 witness: the amended statement at a concrete state that already
holds one row for the pair. -/
theorem c5_document_rows_not_unique_witness :
    (uploadPOST
        { files := [],
          documents := [{ id := "d1", filename := "a.txt", filepath := "p1", filesize := 1, mimetype := "text/plain", chunkCount := 3, userId := "u1" }] }
        (some "u1") (some { name := "a.txt", bytes := [1], mimetype := "" })
        (some 3) 200 "d2").2.documents.countP
        (fun d => d.userId == "u1" && d.filename == "a.txt")
      = ({ files := [],
           documents := [{ id := "d1", filename := "a.txt", filepath := "p1", filesize := 1, mimetype := "text/plain", chunkCount := 3, userId := "u1" }] } :
          ServerState).documents.countP
        (fun d => d.userId == "u1" && d.filename == "a.txt") + 1 :=
  c5_document_rows_not_unique _ "u1" { name := "a.txt", bytes := [1], mimetype := "" }
    (some 3) 200 "d2" (by decide)

/-! ## Claim C6 -/

/-- Claim C6 counterexample: the externally visible response shape consumed
by the client (`AskResponse`, api.ts lines 22-25) has exactly the fields
`answer` and `references` — it carries no reranked/unreranked flag, so the
claimed flag is not part of the client-visible response. -/
theorem c6_no_reranked_flag :
    askResponseFieldNames = ["answer", "references"] ∧
    askResponseFieldNames.contains "reranked" = false ∧
    askResponseFieldNames.contains "unreranked" = false :=
  ⟨rfl, by decide, by decide⟩

/-- Claim C6 amended: when the reranker model is unavailable, the rerank
stage (modelled from the spec) still succeeds and returns the top `top_k`
hybrid candidates unmodified, flagged unreranked inside the core; but no
reranked/unreranked flag is carried in the client-visible response, whose
only fields are `answer` and `references`. -/
theorem c6_rerank_failopen :
    (∀ (crossScore : String → String → Nat) (q : String)
        (candidates : List CoreChunk) (topK : Nat),
      coreRerank crossScore false q candidates topK = (candidates.take topK, false)) ∧
    askResponseFieldNames.contains "reranked" = false ∧
    askResponseFieldNames.contains "unreranked" = false :=
  ⟨fun _ _ _ _ => rfl, by decide, by decide⟩

/-! ## Claim C8 -/

/-- Claim C8 counterexample: a file named "txt" has no extension at all
(no dot), so by the claim it must be rejected with 400 and nothing written;
but `"txt".split(".").pop()` is `"txt"`, the route computes the extension
".txt", accepts the upload, writes the file to disk and creates a Document
row. -/
theorem c8_extensionless_file_accepted :
    claimedExtension "txt" = "" ∧
    allowedExtensions.contains (claimedExtension "txt") = false ∧
    uploadExt "txt" = ".txt" ∧
    (uploadPOST { files := [], documents := [] } (some "u1")
        (some { name := "txt", bytes := [7], mimetype := "" }) (some 2) 5 "d1").1
      = UploadResult.ok "txt" 2 "d1" ∧
    (uploadPOST { files := [], documents := [] } (some "u1")
        (some { name := "txt", bytes := [7], mimetype := "" }) (some 2) 5 "d1").2.files.length
      = 1 := by
  decide

/-- Claim C8 amended: the upload endpoint rejects atomically with respect to
the extension it computes (the lowercased last dot-segment of the name,
prefixed with a dot — which coincides with the true extension except on
dot-free names): an unauthenticated request gets 401, a request without a
file gets 400, and a file whose computed extension is not .txt/.md/.pdf gets
400, in every case with no file written and no Document row created. -/
theorem c8_upload_rejects_atomically (st : ServerState) (backend : Option Nat)
    (ts : Nat) (did : String) :
    (∀ file, uploadPOST st none file backend ts did = (UploadResult.unauthorized, st)) ∧
    (∀ uid, uploadPOST st (some uid) none backend ts did
        = (UploadResult.badRequest "파일이 없습니다.", st)) ∧
    (∀ uid f, allowedExtensions.contains (uploadExt f.name) = false →
      uploadPOST st (some uid) (some f) backend ts did
        = (UploadResult.badRequest "지원되지 않는 파일 형식입니다. (.txt, .md, .pdf만 지원)", st)) := by
  refine ⟨fun file => rfl, fun uid => rfl, fun uid f h => ?_⟩
  have hnot : uploadExt f.name ∉ allowedExtensions := by simpa using h
  simp [uploadPOST, hnot]

/-- Claim C8 witness: the amended statement applied to a rejected .exe
upload. -/
theorem c8_upload_rejects_atomically_witness :
    uploadPOST { files := [], documents := [] } (some "u1")
        (some { name := "malware.exe", bytes := [1], mimetype := "" }) none 3 "d1"
      = (UploadResult.badRequest "지원되지 않는 파일 형식입니다. (.txt, .md, .pdf만 지원)",
         { files := [], documents := [] }) :=
  (c8_upload_rejects_atomically { files := [], documents := [] } none 3 "d1").2.2
    "u1" { name := "malware.exe", bytes := [1], mimetype := "" } (by decide)

/-! ## Claim C4 -/

/-- Helper: a `coreIndex` call that returns status `ok` leaves the indexed
document's (owner, filename, hash) record in the resulting state. -/
theorem coreIndex_ok_mem_docs {chunker : String → List String} {avail : Bool}
    {st st2 : CoreState} {owner filename text : String} {n : Nat}
    (h : coreIndex chunker avail st owner filename text = ((n, IndexStatus.ok), st2)) :
    ({ owner := owner, filename := filename, contentHash := contentHash text } : CoreDoc)
      ∈ st2.docs := by
  by_cases hc : ({ owner := owner, filename := filename, contentHash := contentHash text } :
      CoreDoc) ∈ st.docs
  · simp [coreIndex, hc] at h
  · cases avail with
    | false => simp [coreIndex, hc] at h
    | true =>
      simp only [coreIndex, Bool.true_eq_false] at h
      rw [if_neg (by simpa using hc), if_neg (by simp)] at h
      have h2 := congrArg (fun r => r.2.docs) h
      simp only at h2
      rw [← h2]
      exact List.mem_append_right _ (by simp)

/-- Helper: indexing content whose (owner, filename, hash) document record
is already present is a no-op `skipped_unchanged` success that returns the
state unchanged. -/
theorem coreIndex_skip_of_mem {chunker : String → List String} {avail : Bool}
    {st : CoreState} {owner filename text : String}
    (h : ({ owner := owner, filename := filename, contentHash := contentHash text } : CoreDoc)
      ∈ st.docs) :
    coreIndex chunker avail st owner filename text
      = ((0, IndexStatus.skipped_unchanged), st) := by
  simp [coreIndex, h]

/-- Claim C4: indexing is idempotent with respect to content (core modelled
from the spec): after an `ok` indexing of some content for (owner, filename),
re-indexing the identical content is a no-op success — status
`skipped_unchanged`, zero new chunks, and the state (hence every existing
chunk id) left unchanged. -/
theorem c4_reindex_idempotent (chunker : String → List String) (avail : Bool)
    (st st2 : CoreState) (owner filename text : String) (n : Nat)
    (h : coreIndex chunker true st owner filename text = ((n, IndexStatus.ok), st2)) :
    coreIndex chunker avail st2 owner filename text
      = ((0, IndexStatus.skipped_unchanged), st2) :=
  coreIndex_skip_of_mem (coreIndex_ok_mem_docs h)

/-- Claim C4 witness: a first indexing of "hello" into the empty store
succeeds; re-indexing the identical content is a no-op that keeps the state
(and the existing chunk id 0) unchanged. -/
theorem c4_reindex_idempotent_witness :
    coreIndex (fun t => [t]) true
      { docs := [{ owner := "u1", filename := "a.txt", contentHash := "hello" }],
        chunks := [{ id := 0, owner := "u1", filename := "a.txt", ordinal := 0, text := "hello" }],
        nextChunkId := 1 }
      "u1" "a.txt" "hello"
    = ((0, IndexStatus.skipped_unchanged),
       { docs := [{ owner := "u1", filename := "a.txt", contentHash := "hello" }],
         chunks := [{ id := 0, owner := "u1", filename := "a.txt", ordinal := 0, text := "hello" }],
         nextChunkId := 1 }) :=
  c4_reindex_idempotent (fun t => [t]) true
    { docs := [], chunks := [], nextChunkId := 0 } _ "u1" "a.txt" "hello" 1 (by decide)

/-! ## Claim C9 -/

/-- Helper: processing a concatenation of complete lines processes the first
part and, unless the DONE event was hit there, continues with the second. -/
theorem processLines_append (parse : String → Option ParsedData) (a b : List String) :
    processLines parse (a ++ b)
      = (if (processLines parse a).2 then processLines parse a
         else ((processLines parse a).1 ++ (processLines parse b).1,
               (processLines parse b).2)) := by
  induction a with
  | nil => simp [processLines]
  | cons line rest ih =>
    by_cases hd : isDataLine line = true
    · by_cases hdone : (dataPayload line == "[DONE]") = true
      · simp [processLines, hd, hdone]
      · cases hp : parse (dataPayload line) with
        | none => simpa [processLines, hd, hdone, hp] using ih
        | some parsed =>
          cases hcb : callbackOfParsed parsed with
          | none => simpa [processLines, hd, hdone, hp, hcb] using ih
          | some cb =>
            by_cases hr : (processLines parse rest).2 = true <;>
              simp [processLines, hd, hdone, hp, hcb, ih, hr]
    · simpa [processLines, hd] using ih

/-- Helper: the buffered chunk-reading loop is the line loop applied to the
complete lines framed out of the stream. -/
theorem askStreamLoop_factor (parse : String → Option ParsedData)
    (chunks : List String) (buffer : String) :
    askStreamLoop parse chunks buffer = processLines parse (receivedLines chunks buffer) := by
  induction chunks generalizing buffer with
  | nil => simp [askStreamLoop, receivedLines, processLines]
  | cons value rest ih =>
    simp only [askStreamLoop, receivedLines]
    rw [processLines_append, ih]
    by_cases hr : (processLines parse (jsSplit (buffer ++ value) '\n').dropLast).2 = true
    · simp only [hr, if_true]
      rw [← hr]
    · simp [hr]

/-- Helper: the done flag of the line loop is exactly the presence of a
complete `data: [DONE]` line. -/
theorem processLines_done_eq_any (parse : String → Option ParsedData) (lines : List String) :
    (processLines parse lines).2 = lines.any isDoneLine := by
  induction lines with
  | nil => simp [processLines]
  | cons line rest ih =>
    by_cases hd : isDataLine line = true
    · by_cases hdone : (dataPayload line == "[DONE]") = true
      · simp [processLines, isDoneLine, hd, hdone]
      · cases hp : parse (dataPayload line) with
        | none => simp [processLines, isDoneLine, hd, hdone, hp, ih]
        | some parsed =>
          cases hcb : callbackOfParsed parsed with
          | none => simp [processLines, isDoneLine, hd, hdone, hp, hcb, ih]
          | some cb => simp [processLines, isDoneLine, hd, hdone, hp, hcb, ih]
    · simp [processLines, isDoneLine, hd, ih]

/-- Helper: the line loop never selects the error callback. -/
theorem callbackOfParsed_not_error (parsed : ParsedData) (cb : StreamCallback)
    (h : callbackOfParsed parsed = some cb) : cb.isErrorCb = false := by
  unfold callbackOfParsed at h
  by_cases ht : truthyText parsed.text = true
  · simp [ht] at h
    rw [← h]
    rfl
  · simp [ht] at h
    cases hr : parsed.references with
    | none => rw [hr] at h; exact absurd h (by simp)
    | some rs => rw [hr] at h; rw [← Option.some_inj.mp h]; rfl

/-- Helper: the callbacks emitted by the line loop contain no error
callback. -/
theorem processLines_no_error (parse : String → Option ParsedData) (lines : List String) :
    (processLines parse lines).1.any StreamCallback.isErrorCb = false := by
  induction lines with
  | nil => simp [processLines]
  | cons line rest ih =>
    by_cases hd : isDataLine line = true
    · by_cases hdone : (dataPayload line == "[DONE]") = true
      · simp [processLines, hd, hdone]
      · cases hp : parse (dataPayload line) with
        | none => simp [processLines, hd, hdone, hp, ih]
        | some parsed =>
          cases hcb : callbackOfParsed parsed with
          | none => simp [processLines, hd, hdone, hp, hcb, ih]
          | some cb =>
            simp [processLines, hd, hdone, hp, hcb, ih,
              callbackOfParsed_not_error parsed cb hcb]
    · simp [processLines, hd, ih]

/-- Helper: a data line whose payload is malformed JSON is skipped — the
processed output is as if the line were absent, with no error raised and no
abort of the remaining lines. -/
theorem processLines_skip_malformed (parse : String → Option ParsedData)
    (pre post : List String) (line : String)
    (h1 : isDataLine line = true) (h2 : (dataPayload line == "[DONE]") = false)
    (h3 : parse (dataPayload line) = none) :
    processLines parse (pre ++ line :: post) = processLines parse (pre ++ post) := by
  induction pre with
  | nil => simp [processLines, h1, h2, h3]
  | cons l rest ih =>
    by_cases hd : isDataLine l = true
    · by_cases hdone : (dataPayload l == "[DONE]") = true
      · simp [processLines, hd, hdone]
      · cases hp : parse (dataPayload l) with
        | none => simpa [processLines, hd, hdone, hp] using ih
        | some parsed => simp [processLines, hd, hdone, hp, ih]
    · simp [processLines, hd, ih]

/-- Claim C9: in the askQuestionStream read loop, `onComplete` fires exactly
when a complete `data: [DONE]` event line is received (first conjunct: the
done flag equals the presence of such a framed line, so a stream that closes
without one ends with `onComplete` not invoked); the line loop never invokes
`onError` (second/third conjuncts); and a data line with malformed JSON is
skipped without error and without aborting the remaining lines (last
conjunct). -/
theorem c9_stream_done_semantics :
    (∀ (parse : String → Option ParsedData) (chunks : List String),
      (askStreamLoop parse chunks "").2 = (receivedLines chunks "").any isDoneLine) ∧
    isDoneLine "data: [DONE]" = true ∧
    (∀ (parse : String → Option ParsedData) (chunks : List String),
      (askStreamLoop parse chunks "").1.any StreamCallback.isErrorCb = false) ∧
    (∀ (parse : String → Option ParsedData) (pre post : List String) (line : String),
      isDataLine line = true → (dataPayload line == "[DONE]") = false →
      parse (dataPayload line) = none →
      processLines parse (pre ++ line :: post) = processLines parse (pre ++ post)) := by
  refine ⟨fun parse chunks => ?_, by decide, fun parse chunks => ?_,
    fun parse pre post line h1 h2 h3 =>
      processLines_skip_malformed parse pre post line h1 h2 h3⟩
  · rw [askStreamLoop_factor, processLines_done_eq_any]
  · rw [askStreamLoop_factor]
    exact processLines_no_error parse _

/-- Claim C9 witness: a malformed data line is skipped by the line loop. -/
theorem c9_stream_done_semantics_witness :
    processLines (fun _ => none) ([] ++ "data: notjson" :: [])
      = processLines (fun _ => none) ([] ++ ([] : List String)) :=
  c9_stream_done_semantics.2.2.2 (fun _ => none) [] [] "data: notjson"
    (by decide) (by decide) rfl

/-! ## Claim C10 -/

/-- Helper: replacing the value stored under `sid` in the association list
leaves the lookup of any other key unchanged. -/
theorem find?_setEntry_ne (l : List (String × ChatSession)) (sid other : String)
    (s : ChatSession) (h : other ≠ sid) :
    (l.map (fun kv => if kv.1 == sid then (kv.1, s) else kv)).find?
        (fun kv => kv.1 == other)
      = l.find? (fun kv => kv.1 == other) := by
  induction l with
  | nil => rfl
  | cons kv rest ih =>
    rw [List.map_cons]
    by_cases ho : (kv.1 == other) = true
    · have hs : ¬(kv.1 == sid) = true := by
        have hk : kv.1 = other := by simpa using ho
        rw [hk]
        simpa using h
      rw [if_neg hs]
      simp only [List.find?_cons, ho]
    · have ho1 : (kv.1 == other) = false := by simpa using ho
      by_cases hs : (kv.1 == sid) = true
      · rw [if_pos hs]
        simp only [List.find?_cons, ho1]
        exact ih
      · rw [if_neg hs]
        simp only [List.find?_cons, ho1]
        exact ih

/-- Helper: `lookupSession` at a key other than the one being set is
unchanged by `setSession`. -/
theorem lookupSession_setSession_ne (st : ChatStore) (sid other : String)
    (s : ChatSession) (h : other ≠ sid) :
    lookupSession (setSession st sid s) other = lookupSession st other := by
  unfold lookupSession setSession
  rw [find?_setEntry_ne st.sessions sid other s h]

/-- Claim C10: every chat-store mutation targeting a session id —
`addMessage`, `updateMessage`, `appendMessageContent`, `updateSessionTitle`
— leaves the entire store unchanged when no session with that id exists;
and when it does exist, only that session's entry is modified: the lookup of
every other session id is unchanged, and the current-session pointer is
unchanged. -/
theorem c10_chat_store_mutations (st : ChatStore) (sid mid title content : String)
    (msg : Message) (u : MessageUpdate) (now : Nat) :
    (lookupSession st sid = none →
      addMessage st sid msg now = st ∧
      updateMessage st sid mid u now = st ∧
      appendMessageContent st sid mid content now = st ∧
      updateSessionTitle st sid title now = st) ∧
    (∀ other, other ≠ sid →
      lookupSession (addMessage st sid msg now) other = lookupSession st other ∧
      lookupSession (updateMessage st sid mid u now) other = lookupSession st other ∧
      lookupSession (appendMessageContent st sid mid content now) other
        = lookupSession st other ∧
      lookupSession (updateSessionTitle st sid title now) other = lookupSession st other) ∧
    ((addMessage st sid msg now).currentSessionId = st.currentSessionId ∧
      (updateMessage st sid mid u now).currentSessionId = st.currentSessionId ∧
      (appendMessageContent st sid mid content now).currentSessionId = st.currentSessionId ∧
      (updateSessionTitle st sid title now).currentSessionId = st.currentSessionId) := by
  refine ⟨fun h => ?_, fun other ho => ?_, ?_⟩
  · simp [addMessage, updateMessage, appendMessageContent, updateSessionTitle, h]
  · cases hl : lookupSession st sid with
    | none =>
      simp [addMessage, updateMessage, appendMessageContent, updateSessionTitle, hl]
    | some session =>
      simp only [addMessage, updateMessage, appendMessageContent, updateSessionTitle, hl]
      refine ⟨?_, ?_, ?_, ?_⟩ <;>
        exact lookupSession_setSession_ne st sid other _ ho
  · cases hl : lookupSession st sid with
    | none =>
      simp [addMessage, updateMessage, appendMessageContent, updateSessionTitle, hl]
    | some session =>
      simp [addMessage, updateMessage, appendMessageContent, updateSessionTitle, hl,
        setSession]

/-- Claim C10 witness: on the sample store (holding only session s1), a
mutation addressed to the missing session s2 is the identity; a mutation of
s1 leaves the lookup of another id and the current-session pointer
unchanged. -/
theorem c10_chat_store_mutations_witness :
    addMessage chatStore0 "s2" msg0 7 = chatStore0 ∧
    lookupSession (updateMessage chatStore0 "s1" "m1" {} 7) "s9"
      = lookupSession chatStore0 "s9" ∧
    (updateSessionTitle chatStore0 "s1" "t" 7).currentSessionId
      = chatStore0.currentSessionId :=
  ⟨((c10_chat_store_mutations chatStore0 "s2" "m1" "t" "c" msg0 {} 7).1 (by decide)).1,
   ((c10_chat_store_mutations chatStore0 "s1" "m1" "t" "c" msg0 {} 7).2.1 "s9"
      (by decide)).2.1,
   ((c10_chat_store_mutations chatStore0 "s1" "m1" "t" "c" msg0 {} 7).2.2).2.2.2⟩

end Rag
